import Mathlib

/-!
Verification of the jmLightToolkit Maya plugin (jmLightToolkit.py), shallowly
embedded in Lean. The host scene graph is modelled by explicit query
functions (node types, shapes, parents, connections, list-by-type), host
commands become pure state transformations, and fallible Python control flow
is modelled with `Except` carrying the exception class that CPython would
raise. Logging is modelled as an explicit list of emitted messages where a
claim depends on it.
-/

namespace JMLightToolkit

/-- Name of the displayed-lights display layer (`self.displayed_layer_name`). -/
def displayed_layer_name : String := "displayedLights"

/-- Name of the muted-lights display layer (`self.muted_layer_name`). -/
def muted_layer_name : String := "mutedLights"

/-- Standard Maya light node types (`self.lgt_types_default`). -/
def lgt_types_default : List String :=
  ["pointLight", "spotLight", "areaLight", "directionalLight", "volumeLight"]

/-- Arnold light node types (`self.lgt_types_arnold`, MtoA loaded). -/
def lgt_types_arnold : List String :=
  ["aiAreaLight", "aiMeshLight", "aiPhotometricLight", "aiSkyDomeLight"]

/-- Recognized light types: `self.lgt_types = lgt_types_default + lgt_types_arnold`. -/
def lgt_types : List String := lgt_types_default ++ lgt_types_arnold

/-- Host scene-graph interface used by the toolkit. `nodeType` is
`pm.nodeType(name)`; `getShape` is `node.getShape()` (`none` when the
transform has no shape); `getParent` is `node.getParent()`; `descendants` is
`node.getChildren(ad=True)`; `shapeDescendants` is
`node.getChildren(ad=True, s=True)`; `ls t` is `pm.ls(type=t)`; `members` is
`objectSet.members(True)`; `hasAttr n a` is `pm.objExists("n.a")`. -/
structure Scene where
  nodeType : String → String
  getShape : String → Option String
  getParent : String → String
  descendants : String → List String
  shapeDescendants : String → List String
  ls : String → List String
  members : String → List String
  hasAttr : String → String → Bool

/-- Per-node step of `_onlyLightsFromSelection` (lines 2101-2110): a selected
transform is replaced by its shape (the node is skipped when it has none),
then the node is kept when its type is one of `lgt_types`. -/
def classifyNode (sc : Scene) (n : String) : Option String :=
  match (if sc.nodeType n = "transform" then sc.getShape n else some n) with
  | none => none
  | some m => if sc.nodeType m ∈ lgt_types then some m else none

/-- Selection pool of `_onlyLightsFromSelection` (lines 2091-2098): the raw
selection, or with `all_hierachy` the non-transform descendants of each
selected node. -/
def selectionPool (sc : Scene) (sel : List String) (all_hierachy : Bool) : List String :=
  if all_hierachy then
    sel.flatMap (fun n => (sc.descendants n).filter (fun c => decide (¬ sc.nodeType c = "transform")))
  else sel

/-- `_onlyLightsFromSelection(get_shapes, all_hierachy)`: classify the pool,
warn and return `None` when no light qualifies, otherwise return the light
shapes (`get_shapes=True`) or their parent transforms. The second component
is the list of warnings logged. -/
def onlyLightsFromSelection (sc : Scene) (sel : List String)
    (get_shapes : Bool) (all_hierachy : Bool) :
    Option (List String) × List String :=
  let selection := selectionPool sc sel all_hierachy
  let lights := selection.filterMap (classifyNode sc)
  if lights.isEmpty then (none, ["No lights selected"])
  else if get_shapes then (some lights, [])
  else (some (lights.map sc.getParent), [])

/-- Spec-side predicate, written from the words of the claim: a selected node
qualifies when its node type, or the node type of its shape when a transform
is selected, is one of the recognized light types in `lgt_types`. -/
def isRecognizedLight (sc : Scene) (n : String) : Bool :=
  if sc.nodeType n = "transform" then
    match sc.getShape n with
    | some s => decide (sc.nodeType s ∈ lgt_types)
    | none => false
  else decide (sc.nodeType n ∈ lgt_types)

/-- The light transform a qualifying selected node contributes to the result
of `_onlyLightsFromSelection` in its default `get_shapes=False` form: the
parent of the resolved light shape. -/
def lightTransform (sc : Scene) (n : String) : String :=
  sc.getParent ((classifyNode sc n).getD n)

/-- A small concrete scene: one point light (transform `lgtA`, shape
`lgtAShape`), a second point light (`lgtB`/`lgtBShape`) and a polygon cube
(`pCube1`/`pCube1Shape` of type `mesh`). -/
def exScene : Scene where
  nodeType := fun n =>
    if n = "lgtAShape" then "pointLight"
    else if n = "lgtBShape" then "pointLight"
    else if n = "lgtA" then "transform"
    else if n = "lgtB" then "transform"
    else if n = "pCube1" then "transform"
    else "mesh"
  getShape := fun n =>
    if n = "lgtA" then some "lgtAShape"
    else if n = "lgtB" then some "lgtBShape"
    else if n = "pCube1" then some "pCube1Shape"
    else none
  getParent := fun n =>
    if n = "lgtAShape" then "lgtA"
    else if n = "lgtBShape" then "lgtB"
    else if n = "pCube1Shape" then "pCube1"
    else ""
  descendants := fun n => if n = "lgtA" then ["lgtAShape"] else []
  shapeDescendants := fun n => if n = "pCube1" then ["pCube1Shape"] else []
  ls := fun t => if t = "pointLight" then ["lgtAShape", "lgtBShape"] else []
  members := fun _ => []
  hasAttr := fun n a => (n = "lgtAShape" || n = "lgtBShape") && a = "intensity"

/-! Claim C2: error handling of `createSet` and `breakAllLinks`. The Python
exception classes CPython would raise are made explicit. -/

/-- Python exception classes relevant to the modelled control flow. -/
inductive PyErr where
  | indexError
  | typeError
  | attributeError
deriving DecidableEq, Repr

/-- Node types collected by `createSet` (`include_type`, line 744). -/
def include_type : List String := ["mesh", "aiStandIn", "pgYetiMaya"]

/-- Character class `[A-Za-z0-9_]` of the set-name regular expression. -/
def isWordChar (c : Char) : Bool := c.isAlphanum || c = '_'

/-- Search for the pattern `[A-Za-z0-9_]+(_SETS)` anywhere in the string
(`re.search`, line 783): some word character immediately followed by the
literal `_SETS`. -/
def containsSetsPattern : List Char → Bool
  | [] => false
  | c :: rest => (isWordChar c && List.isPrefixOf "_SETS".toList rest) || containsSetsPattern rest

/-- `createSet` (lines 740-793). The prompt dialog is modelled as an input:
`none` for Cancel, `some txt` for OK with the entered text. The root-set
bookkeeping (`root_SETS` creation and `pm.sets(root_set, fe=set_)`) is pure
host mutation and is not part of the returned data; the returned value models
the created set as its final name and member list, `Except.ok none` models
the guard paths that log and return `None`. Note the source reads
`selected[-1]` before any guard, which raises `IndexError` on an empty
selection. -/
def createSet (sc : Scene) (sel : List String) (dialog : Option String) :
    Except PyErr (Option (String × List String)) :=
  match sel.getLast? with
  | none => .error .indexError
  | some _pre =>
    let shapes := sel.flatMap
      (fun n => (sc.shapeDescendants n).filter (fun c => decide (sc.nodeType c ∈ include_type)))
    let transforms := shapes.map sc.getParent
    if transforms.isEmpty then .ok none
    else
      match dialog with
      | none => .ok none
      | some input_ =>
        let name := if containsSetsPattern input_.toList then input_ else input_ ++ "_SET"
        .ok (some (name, transforms))

/-- `breakAllLinks` (lines 851-859): iterates directly over the result of
`_onlyLightsFromSelection`, which is `None` when the selection holds no
light, so the `for` loop raises `TypeError` there; otherwise it breaks the
links of each light and returns the last loop variable. The link mutations
are host state and not part of the returned data. -/
def breakAllLinks (sc : Scene) (sel : List String) : Except PyErr (Option String) :=
  match (onlyLightsFromSelection sc sel false false).1 with
  | none => .error .typeError
  | some lights => .ok lights.getLast?

/-! Claim C8: the undo-chunk wrapper. -/

/-- Host-command events observable from outside a toolkit operation. -/
inductive Event where
  | openChunk
  | closeChunk
  | hostCmd (s : String)
deriving DecidableEq, Repr

/-- A Python computation as observed from outside: the host-command events it
emits, in order, and either its value or the exception it raises. -/
structure PyComp (α : Type) where
  events : List Event
  result : Except String α

/-- `_wrapperUndoChunck` (lines 296-305): `try: undoInfo(openChunk=True);
function(...)` then `finally: undoInfo(closeChunk=True)`. The chunk opens
before the wrapped side effects, closes after them on both the normal and the
exceptional path, and the exception (if any) propagates after the `finally`
block; the wrapper itself returns `None`. -/
def wrapperUndoChunck {α : Type} (f : PyComp α) : PyComp Unit where
  events := Event.openChunk :: (f.events ++ [Event.closeChunk])
  result :=
    match f.result with
    | .ok _ => .ok ()
    | .error e => .error e

/-! Claim C9: objectSet expansion in `makeLightLinks` and `breakLightLinks`.
Both methods run `for node in selected: if nodeType(node) == "objectSet":
set_children.extend(node.members(True)); selected.remove(node)` and then
select `selected` plus `set_children` before invoking the host command. The
loop is modelled with CPython iterator semantics: the iterator keeps a
position counter into the (mutated) list, `list.remove` deletes the first
equal element, and the counter is not adjusted after a removal. -/

/-- One CPython `for`-loop execution over the mutated list, with explicit
fuel. Each iteration advances the position counter by one while a removal
shrinks the list, so the loop runs at most `sel.length` times; the fuel is
only a structural-recursion bound and never cuts the loop short when it is
at least that number. -/
def expandSetsLoopAux (sc : Scene) : Nat → List String → List String → Nat →
    List String × List String
  | 0, sel, children, _ => (sel, children)
  | fuel + 1, sel, children, c =>
    if h : c < sel.length then
      let node := sel.get ⟨c, h⟩
      if sc.nodeType node = "objectSet" then
        expandSetsLoopAux sc fuel (sel.erase node) (children ++ sc.members node) (c + 1)
      else
        expandSetsLoopAux sc fuel sel children (c + 1)
    else (sel, children)

/-- The loop of `makeLightLinks`/`breakLightLinks` (lines 798-804 resp.
813-819) started on a fresh `pm.selected()` copy with an empty
`set_children`. -/
def expandSetsLoop (sc : Scene) (sel : List String) : List String × List String :=
  expandSetsLoopAux sc (sel.length + 1) sel [] 0

/-- Node list passed to `pm.cmds.MakeLightLinks()` by `makeLightLinks`
(lines 796-808): `pm.select(selected)` then `pm.select(set_children,
add=True)`. -/
def makeLightLinksArgs (sc : Scene) (sel : List String) : List String :=
  (expandSetsLoop sc sel).1 ++ (expandSetsLoop sc sel).2

/-- Node list passed to `pm.cmds.BreakLightLinks()` by `breakLightLinks`
(lines 811-823); the expansion loop is identical to `makeLightLinks`. -/
def breakLightLinksArgs (sc : Scene) (sel : List String) : List String :=
  (expandSetsLoop sc sel).1 ++ (expandSetsLoop sc sel).2

/-- A scene with two object sets and their members. -/
def exSceneSets : Scene where
  nodeType := fun n => if n = "setA" || n = "setB" then "objectSet" else "transform"
  getShape := fun _ => none
  getParent := fun _ => ""
  descendants := fun _ => []
  shapeDescendants := fun _ => []
  ls := fun _ => []
  members := fun n =>
    if n = "setA" then ["memberA1", "memberA2"]
    else if n = "setB" then ["memberB1"]
    else []
  hasAttr := fun _ _ => false

/-! Claim C10: idempotence of `linkLightFilterToLights` per (filter, light)
pair. A light shape is modelled by its sparse `aiFilters` input array (a
initial run of indexed slots, `none` = slot not connected, slots beyond the list
not connected) together with its other input connections; `lgt.inputs()`
returns all of them. -/

/-- A light shape as seen by `linkLightFilterToLights`: its `aiFilters`
array and its remaining input connections. -/
structure LightNode where
  aiFilters : List (Option String)
  otherInputs : List String
deriving DecidableEq, Repr

/-- `lgt.inputs()`: every node connected into the light — the other inputs
plus every filter connected in the `aiFilters` array. -/
def inputsOf (l : LightNode) : List String :=
  l.otherInputs ++ l.aiFilters.filterMap id

/-- The `while` scan of lines 988-993: starting from index 0, step past
connected `aiFilters[i]` slots; the result is the lowest index whose slot is
not connected. -/
def lowestFreeIdx : List (Option String) → Nat
  | [] => 0
  | none :: _ => 0
  | some _ :: rest => lowestFreeIdx rest + 1

/-- Connect a filter at array index `i` (`node_filter >> node_lgt`,
line 997), keeping every other slot. -/
def setFilterAt (arr : List (Option String)) (i : Nat) (f : String) : List (Option String) :=
  if i < arr.length then arr.set i (some f)
  else arr ++ List.replicate (i - arr.length) none ++ [some f]

/-- Body of the inner loop of `linkLightFilterToLights` for one filter and
one light (lines 980-997): `transform_filter` is the parent of the filter
shape, or the filter itself when `getParent` raises `AttributeError`
(modelled by `parentOf` returning `none`); when neither the filter nor its
transform is among the light inputs, the filter is connected at the lowest
unconnected `aiFilters` index. -/
def linkFilterToLight (parentOf : String → Option String) (filtr : String)
    (lgt : LightNode) : LightNode :=
  let transform_filter := (parentOf filtr).getD filtr
  if filtr ∈ inputsOf lgt ∨ transform_filter ∈ inputsOf lgt then lgt
  else { lgt with aiFilters := setFilterAt lgt.aiFilters (lowestFreeIdx lgt.aiFilters) filtr }

/-- Number of `aiFilters` slots holding the given filter. -/
def filterCount (filtr : String) (arr : List (Option String)) : Nat :=
  (arr.filterMap id).count filtr

/-! Claims C3 and C4: solo/mute/restore display layers. Display layers are
host nodes identified by name; the layer state of the scene is the list of
existing layers. `pm.createDisplayLayer(n=name)` creates a fresh node that
the code immediately configures through a direct reference, so a created
layer is modelled as one appended record carrying its final field values;
`pm.objExists(name)`/`pm.delete(name)` resolve by name (display-layer names
are unique in the host, so deletion removes every layer of that name). -/

/-- A display layer: name, member nodes, outliner color index, visibility. -/
structure Layer where
  name : String
  members : List String
  color : Nat
  visibility : Bool
deriving DecidableEq, Repr

/-- `_getAllLights(get_shapes)` (lines 2050-2079): `pm.ls(type=t)` for every
recognized light type, warn and return `None` when the scene has no light,
else shapes or parent transforms. -/
def getAllLights (sc : Scene) (get_shapes : Bool) : Option (List String) :=
  let lights := lgt_types.flatMap sc.ls
  if lights.isEmpty then none
  else if get_shapes then some lights
  else some (lights.map sc.getParent)

/-- The undecorated body of `restoreLights` (lines 384-400): delete the
displayed layer when it exists, then the muted layer when it exists; the
body's `return` statement yields whether anything was deleted. -/
def restoreLightsBody (st : List Layer) : List Layer × Bool :=
  let d := st.any (fun l => l.name = displayed_layer_name)
  let st1 := if d then st.filter (fun l => decide (¬ l.name = displayed_layer_name)) else st
  let m := st1.any (fun l => l.name = muted_layer_name)
  let st2 := if m then st1.filter (fun l => decide (¬ l.name = muted_layer_name)) else st1
  (st2, d || m)

/-- The method `restoreLights` as callers see it (line 383): the
`@_wrapperUndoChunck` decorator runs the body inside an undo chunk and
discards the body's return value (`function(self, ...)` is called as a bare
statement, the wrapper falls off its end), so the method itself always
returns Python `None`; only the layer-state effect of the body remains. -/
def restoreLights (st : List Layer) : List Layer × Option Bool :=
  ((restoreLightsBody st).1, none)

/-- `soloLights` (lines 319-352): restore, classify the selection, return
`None` when no light is selected; otherwise partition the scene lights by
`set(all_lights).difference(displayed)` (modelled as deduplication then
filtering, which fixes one representative of the unordered Python set) and
create the muted layer (color 21, visibility off) and the displayed layer
(color 22). When the scene were to hold no light at all while the selection
classifier produced some, `set(None)` would raise `TypeError`; the state in
that case is the already-restored one. -/
def soloLights (sc : Scene) (st : List Layer) (sel : List String) (is_hierarchy : Bool) :
    List Layer × Except PyErr (Option (List String)) :=
  let st1 := (restoreLights st).1
  match (onlyLightsFromSelection sc sel false is_hierarchy).1 with
  | none => (st1, .ok none)
  | some displayed =>
    match getAllLights sc false with
    | none => (st1, .error .typeError)
    | some all_lights =>
      let muted := all_lights.dedup.filter (fun l => decide (¬ l ∈ displayed))
      (st1 ++ [⟨muted_layer_name, muted, 21, false⟩, ⟨displayed_layer_name, displayed, 22, true⟩],
        .ok (some displayed))

/-- `pm.PyNode(name).addMembers(lights)` (line 371): extend the member list
of the layer resolved by name. -/
def addMembersTo (nm : String) (ms : List String) : List Layer → List Layer
  | [] => []
  | l :: rest =>
    if l.name = nm then { l with members := l.members ++ ms } :: rest
    else l :: addMembersTo nm ms rest

/-- `muteLights` (lines 354-381): classify the selection, return `None` when
no light is selected; add the lights to the muted layer when it exists,
otherwise create it (color 21, visibility off). -/
def muteLights (sc : Scene) (st : List Layer) (sel : List String) (is_hierarchy : Bool) :
    List Layer × Option (List String) :=
  match (onlyLightsFromSelection sc sel false is_hierarchy).1 with
  | none => (st, none)
  | some lights =>
    if st.any (fun l => l.name = muted_layer_name) then
      (addMembersTo muted_layer_name lights st, some lights)
    else
      (st ++ [⟨muted_layer_name, lights, 21, false⟩], some lights)

/-! Claim C4: at most one layer of each of the two fixed names exists in any
state reachable by solo/mute/restore sequences. -/

/-- A user-triggered layer operation: the three buttons. -/
inductive LightsOp where
  | solo (sel : List String) (hier : Bool)
  | mute (sel : List String) (hier : Bool)
  | restore
deriving DecidableEq, Repr

/-- Layer-state effect of one operation. -/
def applyOp (sc : Scene) (st : List Layer) : LightsOp → List Layer
  | .solo sel hier => (soloLights sc st sel hier).1
  | .mute sel hier => (muteLights sc st sel hier).1
  | .restore => (restoreLights st).1

/-- Layer state after a sequence of operations. -/
def runOps (sc : Scene) (st : List Layer) : List LightsOp → List Layer
  | [] => st
  | op :: ops => runOps sc (applyOp sc st op) ops

/-- Number of layers carrying a given name. -/
def layerCount (nm : String) (st : List Layer) : Nat :=
  st.countP (fun l => decide (l.name = nm))

/-- The claimed invariant: at most one displayed and one muted layer. -/
def LayerInv (st : List Layer) : Prop :=
  layerCount displayed_layer_name st ≤ 1 ∧ layerCount muted_layer_name st ≤ 1

/-! Claim C5: `setMultiAttributesLights`. Attribute values are numeric host
values set through `pm.setAttr`; they are modelled over `Int` (the claim
concerns which attribute of which node receives which update, not float
arithmetic). The scene attribute store maps node and attribute names to the
current value; `sc.hasAttr` models `pm.objExists("node.attr")`. -/

/-- Standard light attributes (`self.lgt_attrs_default`). -/
def lgt_attrs_default : List String :=
  ["coneAngle", "penumbraAngle", "transmission", "dropoff", "decayRate",
   "emitDiffuse", "emitSpecular", "intensity", "shadowColor", "fogSpread",
   "fogIntensity", "camera", "format", "portalMode", "color"]

/-- Arnold light attributes (`self.lgt_attrs_arnold`; the source list repeats
`aiNormalize` and `aiShadowDensity`, kept as written). -/
def lgt_attrs_arnold : List String :=
  ["aiExposure", "aiSamples", "aiUseColorTemperature", "aiColorTemperature",
   "aiRadius", "aiAngle", "aiSpread", "aiDiffuse", "aiSpecular", "aiSss",
   "aiIndirect", "aiVolume", "aiMaxBounces", "aiNormalize", "aiRoundness",
   "aiCastShadows", "aiShadowDensity", "aiAspectRatio", "aiLensRadius",
   "aiVolumeSamples", "aiCastVolumetricShadows", "aiNormalize",
   "aiShadowColor", "aiShadowDensity"]

/-- Transform channels (`self.transform_attrs`). -/
def transform_attrs : List String :=
  ["translateX", "translateY", "translateZ",
   "rotateX", "rotateY", "rotateZ",
   "scaleX", "scaleY", "scaleZ"]

/-- `self.lgt_attrs = lgt_attrs_default + lgt_attrs_arnold`. -/
def lgt_attrs : List String := lgt_attrs_default ++ lgt_attrs_arnold

/-- The attribute values of the scene: node name and attribute name to value. -/
def AttrStore : Type := String → String → Int

/-- `pm.setAttr("node.attr", v)`. -/
def setAttr (st : AttrStore) (n a : String) (v : Int) : AttrStore :=
  fun n2 a2 => if n2 = n ∧ a2 = a then v else st n2 a2

/-- One iteration of either loop of `setMultiAttributesLights`
(lines 626-634 and 638-649): when `node.attr_` exists, set it to the value
(absolute) or to the value plus its current value (relative, the only other
mode past the guard); otherwise log the missing-attribute warning. The
accumulator carries the store and the warning log. -/
def setOneAttr (sc : Scene) (mode attr_ : String) (value : Int)
    (acc : AttrStore × List String) (node : String) : AttrStore × List String :=
  if sc.hasAttr node attr_ then
    if mode = "absolute" then (setAttr acc.1 node attr_ value, acc.2)
    else (setAttr acc.1 node attr_ (value + acc.1 node attr_), acc.2)
  else (acc.1, acc.2 ++ [node ++ "." ++ attr_ ++ " does not exist"])

/-- `setMultiAttributesLights(mode)` (lines 606-652), with the combo-box
attribute name and spin-box value as inputs: reject an unknown mode with an
error log and no change; return `None` when no light is selected; update the
chosen light attribute across the selected light shapes when the attribute
is a light attribute, else update the transform channel of each selected
node (the node itself when it is a transform, its parent otherwise). The
result carries the final store, the returned light list, and the warnings. -/
def setMultiAttributesLights (sc : Scene) (st : AttrStore) (sel : List String)
    (mode attr_ : String) (value : Int) :
    AttrStore × Option (List String) × List String :=
  if ¬ mode ∈ (["absolute", "relative"] : List String) then
    (st, none, ["mode error: choose absolute or relative"])
  else
    match (onlyLightsFromSelection sc sel true false).1 with
    | none => (st, none, [])
    | some lights =>
      if attr_ ∈ lgt_attrs then
        let r := lights.foldl (setOneAttr sc mode attr_ value) (st, [])
        (r.1, some lights, r.2)
      else
        let targets := sel.map
          (fun s => if ¬ sc.nodeType s = "transform" then sc.getParent s else s)
        let r := targets.foldl (setOneAttr sc mode attr_ value) (st, [])
        (r.1, some lights, r.2)

/-- All attribute values zero. -/
def exStore : AttrStore := fun _ _ => 0

/-! Claim C6: `getUnusedLightFilters`. The scene is queried for filter nodes
by type, their output connections, and their attenuation attributes. The
returned Python dict is modelled as an association list so that its exact
key set is part of the result. -/

/-- A value stored in the result dict of `getUnusedLightFilters`. -/
inductive DictVal where
  | lst (xs : List String)
  | str (s : String)
deriving DecidableEq, Repr

/-- Scene queries used by the filter housekeeping: `pm.ls(type=f)`,
`node.outputs()`, `blocker.density.get()`, `decay.useNearAtten.get()` and
`decay.useFarAtten.get()`. Density is numeric; the code only tests its
Python truthiness, i.e. whether it is zero. -/
structure FilterScene where
  ls : String → List String
  outputs : String → List String
  density : String → Int
  useNearAtten : String → Bool
  useFarAtten : String → Bool

/-- `getUnusedLightFilters(ai_filter)` (lines 1708-1755): reject other
filter names with an error; warn and return `None` when the scene has no
filter of that type; split the filters into disconnected (no outputs) and
connected ones; collect the connected-but-null ones (blockers of zero
density, decays with both attenuations off); return `None` when both result
lists are empty, else the dict with the two lists and the queried type. -/
def getUnusedLightFilters (sc : FilterScene) (ai_filter : String) :
    Option (List (String × DictVal)) :=
  if ¬ ai_filter ∈ (["aiLightDecay", "aiLightBlocker"] : List String) then none
  else
    let all_lightfilters := sc.ls ai_filter
    if all_lightfilters.isEmpty then none
    else
      let disconnected_filters := all_lightfilters.filter
        (fun f => (sc.outputs f).isEmpty)
      let connected_filters := all_lightfilters.filter
        (fun f => decide (¬ (sc.outputs f).isEmpty = true))
      let null_filters :=
        if ai_filter = "aiLightBlocker" then
          connected_filters.filter (fun b => decide (sc.density b = 0))
        else
          connected_filters.filter
            (fun d => decide (sc.useNearAtten d = false ∧ sc.useFarAtten d = false))
      if disconnected_filters.isEmpty ∧ null_filters.isEmpty then none
      else some [("disconnected", DictVal.lst disconnected_filters),
                 ("null", DictVal.lst null_filters),
                 ("type", DictVal.str ai_filter)]

/-- Spec predicate (from the claim): a filter is disconnected exactly when
it has no output connections. -/
def isDisconnectedFilter (sc : FilterScene) (f : String) : Bool :=
  (sc.outputs f).isEmpty

/-- Spec predicate (from the claim): a filter is null exactly when it is
connected and, for blockers, its density is zero, or, for decays, both
attenuations are off. -/
def isNullFilter (sc : FilterScene) (ai_filter f : String) : Bool :=
  !(sc.outputs f).isEmpty
    && (if ai_filter = "aiLightBlocker" then decide (sc.density f = 0)
        else decide (sc.useNearAtten f = false ∧ sc.useFarAtten f = false))

/-- A scene with one blocker without outputs and one connected zero-density
blocker. -/
def exFilterScene : FilterScene where
  ls := fun t => if t = "aiLightBlocker" then ["blockerA", "blockerB"] else []
  outputs := fun f => if f = "blockerB" then ["lgtAShape.aiFilters[0]"] else []
  density := fun _ => 0
  useNearAtten := fun _ => false
  useFarAtten := fun _ => false

/-! Claim C7: the `aiFilters` re-indexing of `deleteSafelyLightFilter`
(lines 1757-1812). For one light and one null filter connected at index
`index` among `num_filter` connected entries, the loop walks `i` from 0 to
`num_filter - 1`: at `i == index` it disconnects the null filter from slot
`i`; at `i > index` it disconnects the filter found at slot `i` and
reconnects it at slot `i - 1`. A slot assignment is a map from index to the
connected filter (`none` = slot not connected). -/

/-- Point update of a slot assignment. -/
def updateSlot (arr : Nat → Option String) (i : Nat) (v : Option String) :
    Nat → Option String :=
  fun j => if j = i then v else arr j

/-- First conditional of the loop body (line 1791-1792): disconnect the null
filter at its own slot. -/
def reindexDisconnect (k i : Nat) (arr : Nat → Option String) : Nat → Option String :=
  if i = k then updateSlot arr i none else arr

/-- Second conditional of the loop body (lines 1794-1798): past the null
index, move the filter at slot `i` down to slot `i - 1`. -/
def reindexShift (k i : Nat) (arr : Nat → Option String) : Nat → Option String :=
  if k < i then updateSlot (updateSlot arr i none) (i - 1) (arr i) else arr

/-- The `while (i < num_filter)` loop from position `i` with the remaining
iteration count as fuel. -/
def reindexAux (k : Nat) (arr : Nat → Option String) (i : Nat) :
    Nat → (Nat → Option String)
  | 0 => arr
  | f + 1 => reindexAux k (reindexShift k i (reindexDisconnect k i arr)) (i + 1) f

/-- The whole loop: `i = 0; while (i < num_filter): ...; i += 1`. -/
def reindexFilters (arr : Nat → Option String) (num_filter index : Nat) :
    Nat → Option String :=
  reindexAux index arr 0 num_filter

/-- `deleted_filters = lightfilters["disconnected"] + lightfilters["null"]`
(line 1803). -/
def deletedFilters (disconnected_filters null_filters : List String) : List String :=
  disconnected_filters ++ null_filters

/-- Effect of the deletion loop of lines 1804-1809 on the set of scene
nodes: every listed filter is removed. -/
def deleteFromScene (scene_nodes deleted : List String) : List String :=
  scene_nodes.filter (fun n => decide (¬ n ∈ deleted))

/-- The `aiFilters` array of a light with three connected filters, the one
at index 1 being null. -/
def exArr : Nat → Option String :=
  fun j => if j = 0 then some "f0" else if j = 1 then some "nullF"
    else if j = 2 then some "f2" else none

theorem classifyNode_isSome (sc : Scene) (n : String) :
    (classifyNode sc n).isSome = isRecognizedLight sc n := by
  unfold classifyNode isRecognizedLight
  by_cases h : sc.nodeType n = "transform"
  · cases hs : sc.getShape n with
    | none => simp [h, hs]
    | some s => by_cases hm : sc.nodeType s ∈ lgt_types <;> simp [h, hs, hm]
  · by_cases hm : sc.nodeType n ∈ lgt_types <;> simp [h, hm]

theorem filterMap_classify_map_parent (sc : Scene) (l : List String) :
    (l.filterMap (classifyNode sc)).map sc.getParent =
      (l.filter (isRecognizedLight sc)).map (lightTransform sc) := by
  induction l with
  | nil => rfl
  | cons n rest ih =>
    have hcls := classifyNode_isSome sc n
    cases hc : classifyNode sc n with
    | none =>
      have : isRecognizedLight sc n = false := by rw [← hcls, hc]; rfl
      simp [List.filterMap_cons, List.filter_cons, hc, this, ih]
    | some s =>
      have : isRecognizedLight sc n = true := by rw [← hcls, hc]; rfl
      simp [List.filterMap_cons, List.filter_cons, hc, this, ih, lightTransform]

theorem filterMap_classify_length (sc : Scene) (l : List String) :
    (l.filterMap (classifyNode sc)).length = (l.filter (isRecognizedLight sc)).length := by
  have h := filterMap_classify_map_parent sc l
  have h1 := congrArg List.length h
  simpa using h1

theorem filterMap_classify_isEmpty (sc : Scene) (l : List String) :
    (l.filterMap (classifyNode sc)).isEmpty = (l.filter (isRecognizedLight sc)).isEmpty := by
  have h := filterMap_classify_length sc l
  cases ha : (l.filterMap (classifyNode sc)).isEmpty <;>
    cases hb : (l.filter (isRecognizedLight sc)).isEmpty <;> try rfl
  · rw [List.isEmpty_iff_length_eq_zero] at hb
    have ha2 : ¬ (l.filterMap (classifyNode sc)).length = 0 := by
      intro h0
      rw [← List.isEmpty_iff_length_eq_zero] at h0
      rw [ha] at h0
      exact Bool.false_ne_true h0
    omega
  · rw [List.isEmpty_iff_length_eq_zero] at ha
    have hb2 : ¬ (l.filter (isRecognizedLight sc)).length = 0 := by
      intro h0
      rw [← List.isEmpty_iff_length_eq_zero] at h0
      rw [hb] at h0
      exact Bool.false_ne_true h0
    omega

/-- The default-argument body of `_onlyLightsFromSelection` rewritten through
the spec predicate: one pass over a pool of candidate nodes. -/
theorem onlyLights_core (sc : Scene) (pool : List String) :
    onlyLightsFromSelection sc pool false false =
      (if (pool.filter (isRecognizedLight sc)).isEmpty then
        ((none : Option (List String)), ["No lights selected"])
       else (some ((pool.filter (isRecognizedLight sc)).map (lightTransform sc)), [])) := by
  have hmap := filterMap_classify_map_parent sc pool
  have hempty := filterMap_classify_isEmpty sc pool
  show (if (pool.filterMap (classifyNode sc)).isEmpty then
          ((none : Option (List String)), ["No lights selected"])
        else if false = true then (some (pool.filterMap (classifyNode sc)), [])
        else (some ((pool.filterMap (classifyNode sc)).map sc.getParent), [])) = _
  rw [hempty, hmap]
  simp

/-- C1. `_onlyLightsFromSelection` returns, for the default call, one light
transform per selected node whose type (or whose shape type, for a selected
transform) is in `lgt_types`, excluding every other node; with
`all_hierachy=True` the same classification is applied to the non-transform
descendants of the selected nodes instead; and when nothing qualifies it logs
the warning and returns `None`. In a well-formed scene (the parent of a
transform shape is that transform) the transform returned for a qualifying
selected transform is the selected node itself. -/
theorem onlyLightsFromSelection_spec (sc : Scene) (sel : List String) :
    (onlyLightsFromSelection sc sel false false =
      (if (sel.filter (isRecognizedLight sc)).isEmpty then (none, ["No lights selected"])
       else (some ((sel.filter (isRecognizedLight sc)).map (lightTransform sc)), [])))
    ∧ (onlyLightsFromSelection sc sel false true =
      (if ((selectionPool sc sel true).filter (isRecognizedLight sc)).isEmpty then
        (none, ["No lights selected"])
       else (some (((selectionPool sc sel true).filter (isRecognizedLight sc)).map
        (lightTransform sc)), [])))
    ∧ ((∀ n s, sc.getShape n = some s → sc.getParent s = n) →
        ∀ n, isRecognizedLight sc n = true → sc.nodeType n = "transform" →
          lightTransform sc n = n) := by
  refine ⟨onlyLights_core sc sel, ?_, ?_⟩
  · have hred : onlyLightsFromSelection sc sel false true =
        onlyLightsFromSelection sc (selectionPool sc sel true) false false := rfl
    rw [hred]
    exact onlyLights_core sc (selectionPool sc sel true)
  · intro hwf n hrec htr
    unfold isRecognizedLight at hrec
    rw [if_pos htr] at hrec
    unfold lightTransform classifyNode
    rw [if_pos htr]
    cases hs : sc.getShape n with
    | none => rw [hs] at hrec; exact absurd hrec (by simp)
    | some s =>
      rw [hs] at hrec
      simp only [decide_eq_true_eq] at hrec
      simp only [hs, if_pos hrec, Option.getD_some]
      exact hwf n s hs

/-- C1 witness: in the example scene the classifier keeps the selected light
transform `lgtA` and drops the cube, and the returned node is the selected
transform itself. -/
theorem onlyLightsFromSelection_spec_witness :
    onlyLightsFromSelection exScene ["lgtA", "pCube1"] false false = (some ["lgtA"], [])
    ∧ lightTransform exScene "lgtA" = "lgtA" := by
  have h := onlyLightsFromSelection_spec exScene ["lgtA", "pCube1"]
  constructor
  · rw [h.1]
    decide
  · refine h.2.2 ?_ "lgtA" (by decide) (by decide)
    intro n s hs
    by_cases h1 : n = "lgtA"
    · subst h1
      have h2 : s = "lgtAShape" := by
        simp [exScene] at hs
        exact hs.symm
      subst h2
      decide
    by_cases h2 : n = "lgtB"
    · subst h2
      have h3 : s = "lgtBShape" := by
        simp [exScene] at hs
        exact hs.symm
      subst h3
      decide
    by_cases h3 : n = "pCube1"
    · subst h3
      have h4 : s = "pCube1Shape" := by
        simp [exScene] at hs
        exact hs.symm
      subst h4
      decide
    · have h4 : exScene.getShape n = none := by
        simp [exScene, h1, h2, h3]
      rw [h4] at hs
      exact absurd hs (by simp)

/-- C2 (refuting evaluation). `createSet` on an empty selection raises
`IndexError` at `selected[-1]`, and `breakAllLinks` on a selection with no
light raises `TypeError` iterating the `None` returned by the classifier:
neither logs-and-returns-`None` as the claim states. -/
theorem createSet_breakAllLinks_raise :
    createSet exScene [] none = .error .indexError
    ∧ breakAllLinks exScene ["pCube1"] = .error .typeError := by
  constructor
  · rfl
  · rfl

/-- C8. For every wrapped operation, the open event precedes all of the
operation events and the close event follows them, on the success path and
on the exceptional path alike; hence whenever the wrapped operation emits
balanced chunk events, so does the wrapped whole, and any exception of the
operation still propagates after the close. -/
theorem wrapperUndoChunck_spec {α : Type} (f : PyComp α) :
    ((wrapperUndoChunck f).events = Event.openChunk :: (f.events ++ [Event.closeChunk]))
    ∧ (f.events.count Event.openChunk = f.events.count Event.closeChunk →
        (wrapperUndoChunck f).events.count Event.openChunk =
          (wrapperUndoChunck f).events.count Event.closeChunk)
    ∧ (∀ e, f.result = .error e → (wrapperUndoChunck f).result = .error e) := by
  refine ⟨rfl, ?_, ?_⟩
  · intro hbal
    show (Event.openChunk :: (f.events ++ [Event.closeChunk])).count Event.openChunk
        = (Event.openChunk :: (f.events ++ [Event.closeChunk])).count Event.closeChunk
    rw [List.count_cons, List.count_cons, List.count_append, List.count_append]
    simp [hbal, List.count_singleton]
  · intro e he
    show (match f.result with
          | .ok _ => (Except.ok () : Except String Unit)
          | .error e2 => .error e2) = .error e
    rw [he]

/-- C8 witness: a wrapped operation that raises after one host command still
has its chunk closed after its events, and its exception propagates. -/
theorem wrapperUndoChunck_spec_witness :
    ((wrapperUndoChunck ⟨[Event.hostCmd "setAttr"], (.error "RuntimeError" : Except String Unit)⟩).events
      = [Event.openChunk, Event.hostCmd "setAttr", Event.closeChunk])
    ∧ ((wrapperUndoChunck ⟨[Event.hostCmd "setAttr"], (.error "RuntimeError" : Except String Unit)⟩).events.count
        Event.openChunk
      = (wrapperUndoChunck ⟨[Event.hostCmd "setAttr"], (.error "RuntimeError" : Except String Unit)⟩).events.count
        Event.closeChunk)
    ∧ (wrapperUndoChunck ⟨[Event.hostCmd "setAttr"], (.error "RuntimeError" : Except String Unit)⟩).result
      = .error "RuntimeError" := by
  have h := wrapperUndoChunck_spec ⟨[Event.hostCmd "setAttr"], (.error "RuntimeError" : Except String Unit)⟩
  refine ⟨by rw [h.1]; rfl, h.2.1 (by decide), h.2.2 "RuntimeError" rfl⟩

/-- C9 (refuting evaluation). With two objectSets selected back to back,
removing the current node while iterating skips the next element: `setB` is
passed unexpanded to the host link command and its member is dropped, for
`makeLightLinks` and `breakLightLinks` alike — the claim that the passed
list holds the members of each selected set and no objectSet fails. -/
theorem makeLightLinks_skips_adjacent_objectSet :
    makeLightLinksArgs exSceneSets ["setA", "setB"] = ["setB", "memberA1", "memberA2"]
    ∧ "setB" ∈ makeLightLinksArgs exSceneSets ["setA", "setB"]
    ∧ exSceneSets.nodeType "setB" = "objectSet"
    ∧ ¬ "memberB1" ∈ makeLightLinksArgs exSceneSets ["setA", "setB"]
    ∧ breakLightLinksArgs exSceneSets ["setA", "setB"] = ["setB", "memberA1", "memberA2"] := by
  refine ⟨rfl, by decide, rfl, by decide, rfl⟩

theorem lowestFreeIdx_le_length (arr : List (Option String)) :
    lowestFreeIdx arr ≤ arr.length := by
  induction arr with
  | nil => exact Nat.le_refl 0
  | cons a rest ih =>
    cases a with
    | none => exact Nat.zero_le _
    | some f => simpa [lowestFreeIdx] using Nat.succ_le_succ ih

theorem lowestFreeIdx_spec (arr : List (Option String)) :
    (∀ j, j < lowestFreeIdx arr → (arr.getD j none).isSome)
    ∧ arr.getD (lowestFreeIdx arr) none = none := by
  induction arr with
  | nil => exact ⟨fun j hj => absurd hj (Nat.not_lt_zero j), rfl⟩
  | cons a rest ih =>
    cases a with
    | none => exact ⟨fun j hj => absurd hj (Nat.not_lt_zero j), rfl⟩
    | some f =>
      refine ⟨fun j hj => ?_, ?_⟩
      · cases j with
        | zero => rfl
        | succ j2 =>
          have hj2 : j2 < lowestFreeIdx rest := by
            simpa [lowestFreeIdx, Nat.succ_lt_succ_iff] using hj
          simpa using ih.1 j2 hj2
      · simpa [lowestFreeIdx] using ih.2

theorem setFilterAt_cons_succ (a : Option String) (arr : List (Option String))
    (i : Nat) (v : String) :
    setFilterAt (a :: arr) (i + 1) v = a :: setFilterAt arr i v := by
  unfold setFilterAt
  by_cases h : i < arr.length
  · rw [if_pos (by simpa [Nat.succ_lt_succ_iff] using h), if_pos h]
    rfl
  · rw [if_neg (by simpa [Nat.succ_lt_succ_iff] using h), if_neg h]
    simp [Nat.succ_sub_succ]

theorem filterCount_setFilterAt_free (arr : List (Option String)) (filtr : String) :
    filterCount filtr (setFilterAt arr (lowestFreeIdx arr) filtr)
      = filterCount filtr arr + 1 := by
  induction arr with
  | nil => simp [setFilterAt, lowestFreeIdx, filterCount]
  | cons a rest ih =>
    cases a with
    | none =>
      simp [setFilterAt, lowestFreeIdx, filterCount, List.filterMap_cons]
    | some f =>
      rw [show lowestFreeIdx (some f :: rest) = lowestFreeIdx rest + 1 from rfl,
        setFilterAt_cons_succ]
      unfold filterCount at ih ⊢
      simp only [List.filterMap_cons, id, List.count_cons]
      omega

/-- C10. Per (filter, light) pair, `linkLightFilterToLights` is idempotent:
when the filter or its transform is already among the light inputs the light
is untouched, otherwise the filter is connected at the lowest unconnected
`aiFilters` index (every lower slot being connected); consequently a light
never ends up with the same filter connected in two slots. -/
theorem linkLightFilterToLights_idempotent (parentOf : String → Option String)
    (filtr : String) (lgt : LightNode) :
    (filtr ∈ inputsOf lgt ∨ (parentOf filtr).getD filtr ∈ inputsOf lgt →
      linkFilterToLight parentOf filtr lgt = lgt)
    ∧ (¬ (filtr ∈ inputsOf lgt ∨ (parentOf filtr).getD filtr ∈ inputsOf lgt) →
        (linkFilterToLight parentOf filtr lgt).aiFilters
          = setFilterAt lgt.aiFilters (lowestFreeIdx lgt.aiFilters) filtr
        ∧ (∀ j, j < lowestFreeIdx lgt.aiFilters → (lgt.aiFilters.getD j none).isSome)
        ∧ lgt.aiFilters.getD (lowestFreeIdx lgt.aiFilters) none = none)
    ∧ (filterCount filtr lgt.aiFilters ≤ 1 →
        filterCount filtr (linkFilterToLight parentOf filtr lgt).aiFilters ≤ 1) := by
  refine ⟨?_, ?_, ?_⟩
  · intro hmem
    unfold linkFilterToLight
    rw [if_pos hmem]
  · intro hmem
    unfold linkFilterToLight
    rw [if_neg hmem]
    exact ⟨rfl, (lowestFreeIdx_spec lgt.aiFilters).1, (lowestFreeIdx_spec lgt.aiFilters).2⟩
  · intro hcount
    by_cases hmem : filtr ∈ inputsOf lgt ∨ (parentOf filtr).getD filtr ∈ inputsOf lgt
    · unfold linkFilterToLight
      rw [if_pos hmem]
      exact hcount
    · have hzero : filterCount filtr lgt.aiFilters = 0 := by
        by_contra hne
        have hpos : 0 < filterCount filtr lgt.aiFilters := Nat.pos_of_ne_zero hne
        have hin : filtr ∈ lgt.aiFilters.filterMap id := by
          exact List.count_pos_iff.mp hpos
        exact hmem (Or.inl (List.mem_append_right _ hin))
      unfold linkFilterToLight
      rw [if_neg hmem]
      show filterCount filtr (setFilterAt lgt.aiFilters (lowestFreeIdx lgt.aiFilters) filtr) ≤ 1
      rw [filterCount_setFilterAt_free, hzero]

/-- C10 witness: a light already holding the filter in slot 0 is untouched;
a light with slot 0 occupied by another filter and slot 1 free receives the
new filter in slot 1, and the filter appears in exactly one slot. -/
theorem linkLightFilterToLights_idempotent_witness :
    linkFilterToLight (fun _ => none) "blocker1" ⟨[some "blocker1"], []⟩
      = ⟨[some "blocker1"], []⟩
    ∧ (linkFilterToLight (fun _ => none) "blocker1" ⟨[some "decay1"], []⟩).aiFilters
      = [some "decay1", some "blocker1"]
    ∧ filterCount "blocker1"
        (linkFilterToLight (fun _ => none) "blocker1" ⟨[some "decay1"], []⟩).aiFilters ≤ 1 := by
  have h1 := linkLightFilterToLights_idempotent (fun _ => none) "blocker1"
    ⟨[some "blocker1"], []⟩
  have h2 := linkLightFilterToLights_idempotent (fun _ => none) "blocker1"
    ⟨[some "decay1"], []⟩
  refine ⟨h1.1 (by decide), ?_, h2.2.2 (by decide)⟩
  rw [(h2.2.1 (by decide)).1]
  rfl

theorem onlyLights_pool (sc : Scene) (sel : List String) (b : Bool) :
    onlyLightsFromSelection sc sel false b
      = onlyLightsFromSelection sc (selectionPool sc sel b) false false := by
  cases b <;> rfl

theorem classifyNode_of_isRecognized (sc : Scene) (n : String)
    (h : isRecognizedLight sc n = true) :
    ∃ s, classifyNode sc n = some s ∧ sc.nodeType s ∈ lgt_types := by
  have hs := classifyNode_isSome sc n
  rw [h] at hs
  rcases Option.isSome_iff_exists.mp hs with ⟨s, hcls⟩
  refine ⟨s, hcls, ?_⟩
  unfold classifyNode at hcls
  rcases hopt : (if sc.nodeType n = "transform" then sc.getShape n else some n) with _ | m
  · rw [hopt] at hcls
    exact absurd hcls (by simp)
  · rw [hopt] at hcls
    change (if sc.nodeType m ∈ lgt_types then some m else none) = some s at hcls
    by_cases hm : sc.nodeType m ∈ lgt_types
    · rw [if_pos hm] at hcls
      cases hcls
      exact hm
    · rw [if_neg hm] at hcls
      exact absurd hcls (by simp)

/-- C3. When the selection classifier yields the non-empty light list `S` in
a scene whose light-type table is closed under `lgt_types` membership, the
full light list `L` exists, and `soloLights` produces (next to the restored
layers) exactly two new layers: `mutedLights` with visibility off holding
exactly `L` minus `S`, and `displayedLights` holding exactly `S`; the two
member lists are disjoint and their union is `L` up to membership. -/
theorem soloLights_spec (sc : Scene) (st : List Layer) (sel : List String)
    (is_hierarchy : Bool) (S : List String)
    (hS : (onlyLightsFromSelection sc sel false is_hierarchy).1 = some S)
    (hwf : ∀ s, sc.nodeType s ∈ lgt_types → s ∈ sc.ls (sc.nodeType s)) :
    ∃ L, getAllLights sc false = some L
      ∧ (soloLights sc st sel is_hierarchy).1
        = (restoreLights st).1
          ++ [⟨muted_layer_name, L.dedup.filter (fun l => decide (¬ l ∈ S)), 21, false⟩,
              ⟨displayed_layer_name, S, 22, true⟩]
      ∧ (soloLights sc st sel is_hierarchy).2 = .ok (some S)
      ∧ (∀ x, x ∈ L.dedup.filter (fun l => decide (¬ l ∈ S)) → ¬ x ∈ S)
      ∧ (∀ x, x ∈ L ↔ (x ∈ L.dedup.filter (fun l => decide (¬ l ∈ S)) ∨ x ∈ S)) := by
  have hS0 := hS
  rw [onlyLights_pool, onlyLights_core] at hS
  by_cases he : ((selectionPool sc sel is_hierarchy).filter (isRecognizedLight sc)).isEmpty
  · rw [if_pos he] at hS
    exact absurd hS (by simp)
  rw [if_neg he] at hS
  simp only at hS
  have hSq : ((selectionPool sc sel is_hierarchy).filter (isRecognizedLight sc)).map
      (lightTransform sc) = S := Option.some_inj.mp hS
  have hSsub : ∀ x, x ∈ S → ∃ s, x = sc.getParent s ∧ sc.nodeType s ∈ lgt_types := by
    intro x hx
    rw [← hSq] at hx
    rcases List.mem_map.mp hx with ⟨n, hn, hlt⟩
    have hrec : isRecognizedLight sc n = true := (List.mem_filter.mp hn).2
    rcases classifyNode_of_isRecognized sc n hrec with ⟨s, hcls, hty⟩
    refine ⟨s, ?_, hty⟩
    rw [← hlt]
    unfold lightTransform
    rw [hcls]
    rfl
  have hLmem : ∀ x, x ∈ S → x ∈ (lgt_types.flatMap sc.ls).map sc.getParent := by
    intro x hx
    rcases hSsub x hx with ⟨s, hxs, hty⟩
    have hsls : s ∈ sc.ls (sc.nodeType s) := hwf s hty
    have hflat : s ∈ lgt_types.flatMap sc.ls := List.mem_flatMap.mpr ⟨sc.nodeType s, hty, hsls⟩
    exact hxs ▸ List.mem_map_of_mem sc.getParent hflat
  have hSne : ∃ x, x ∈ S := by
    rcases hq : (selectionPool sc sel is_hierarchy).filter (isRecognizedLight sc) with _ | ⟨n, tl⟩
    · rw [hq] at he
      exact absurd rfl he
    · refine ⟨lightTransform sc n, ?_⟩
      rw [← hSq, hq]
      exact List.mem_map_of_mem _ (List.mem_cons_self n tl)
  have hLne : (lgt_types.flatMap sc.ls).isEmpty = false := by
    rcases hSne with ⟨x, hx⟩
    have := hLmem x hx
    rcases hflat : lgt_types.flatMap sc.ls with _ | _
    · rw [hflat] at this
      exact absurd this (by simp)
    · rfl
  have hAll : getAllLights sc false = some ((lgt_types.flatMap sc.ls).map sc.getParent) := by
    simp only [getAllLights, hLne, Bool.false_eq_true, if_false]
  refine ⟨(lgt_types.flatMap sc.ls).map sc.getParent, hAll, ?_, ?_, ?_, ?_⟩
  · unfold soloLights
    rw [hS0, hAll]
  · unfold soloLights
    rw [hS0, hAll]
  · intro x hx
    have hx2 := (List.mem_filter.mp hx).2
    exact of_decide_eq_true hx2
  · intro x
    constructor
    · intro hxL
      by_cases hxS : x ∈ S
      · exact Or.inr hxS
      · refine Or.inl (List.mem_filter.mpr ⟨List.mem_dedup.mpr hxL, decide_eq_true hxS⟩)
    · intro hor
      rcases hor with hxf | hxS
      · exact List.mem_dedup.mp (List.mem_filter.mp hxf).1
      · exact hLmem x hxS

/-- C3 witness: in the example scene, soloing the selected light `lgtA`
yields the displayed layer `["lgtA"]` and the muted layer `["lgtB"]`. -/
theorem soloLights_spec_witness :
    ∃ L, getAllLights exScene false = some L
      ∧ (soloLights exScene [] ["lgtA"] false).1
        = (restoreLights []).1
          ++ [⟨muted_layer_name, L.dedup.filter (fun l => decide (¬ l ∈ ["lgtA"])), 21, false⟩,
              ⟨displayed_layer_name, ["lgtA"], 22, true⟩]
      ∧ (soloLights exScene [] ["lgtA"] false).2 = .ok (some ["lgtA"])
      ∧ (∀ x, x ∈ L.dedup.filter (fun l => decide (¬ l ∈ ["lgtA"])) → ¬ x ∈ ["lgtA"])
      ∧ (∀ x, x ∈ L ↔ (x ∈ L.dedup.filter (fun l => decide (¬ l ∈ ["lgtA"])) ∨ x ∈ ["lgtA"])) := by
  refine soloLights_spec exScene [] ["lgtA"] false ["lgtA"] (by decide) ?_
  intro s hs
  by_cases h1 : s = "lgtAShape"
  · subst h1; decide
  by_cases h2 : s = "lgtBShape"
  · subst h2; decide
  by_cases h3 : s = "lgtA"
  · subst h3; exact absurd hs (by decide)
  by_cases h4 : s = "lgtB"
  · subst h4; exact absurd hs (by decide)
  by_cases h5 : s = "pCube1"
  · subst h5; exact absurd hs (by decide)
  · have : exScene.nodeType s = "mesh" := by
      simp [exScene, h1, h2, h3, h4, h5]
    rw [this] at hs
    exact absurd hs (by decide)

theorem layerCount_append (nm : String) (a b : List Layer) :
    layerCount nm (a ++ b) = layerCount nm a + layerCount nm b := by
  unfold layerCount
  rw [List.countP_append]

theorem layerCount_eq_zero_of_not_any (nm : String) (st : List Layer)
    (h : st.any (fun l => l.name = nm) = false) : layerCount nm st = 0 := by
  unfold layerCount
  rw [List.countP_eq_zero]
  intro a ha
  simp only [decide_eq_true_eq]
  intro heq
  have h2 : st.any (fun l => decide (l.name = nm)) = true :=
    List.any_eq_true.mpr ⟨a, ha, by simp [heq]⟩
  rw [h2] at h
  exact Bool.noConfusion h

theorem layerCount_filter_ne (nm : String) (st : List Layer) :
    layerCount nm (st.filter (fun l => decide (¬ l.name = nm))) = 0 := by
  unfold layerCount
  rw [List.countP_eq_zero]
  intro a ha
  have h2 := (List.mem_filter.mp ha).2
  simp only [decide_not, Bool.not_eq_eq_eq_not, Bool.not_true] at h2 ⊢
  simp [h2]

theorem layerCount_filter_other (nm nm2 : String) (st : List Layer) (hne : ¬ nm = nm2) :
    layerCount nm (st.filter (fun l => decide (¬ l.name = nm2))) = layerCount nm st := by
  unfold layerCount
  rw [List.countP_filter]
  refine List.countP_congr ?_
  intro l _
  constructor
  · intro h
    exact (Bool.and_eq_true_iff.mp h).1
  · intro h
    refine Bool.and_eq_true_iff.mpr ⟨h, ?_⟩
    have hl : l.name = nm := of_decide_eq_true h
    simp [hl, hne]

theorem restoreLightsBody_counts (st : List Layer) :
    layerCount displayed_layer_name (restoreLightsBody st).1 = 0
    ∧ layerCount muted_layer_name (restoreLightsBody st).1 = 0 := by
  have hdm : ¬ displayed_layer_name = muted_layer_name := by decide
  have hA : layerCount displayed_layer_name
      (if st.any (fun l => l.name = displayed_layer_name) = true then
        st.filter (fun l => decide (¬ l.name = displayed_layer_name)) else st) = 0 := by
    cases hd : st.any (fun l => l.name = displayed_layer_name) with
    | false =>
      rw [if_neg (by simp [hd])]
      exact layerCount_eq_zero_of_not_any _ _ hd
    | true =>
      rw [if_pos (by simp [hd])]
      exact layerCount_filter_ne _ _
  set st1 := (if st.any (fun l => l.name = displayed_layer_name) = true then
      st.filter (fun l => decide (¬ l.name = displayed_layer_name)) else st) with hst1
  have hgoal : (restoreLightsBody st).1 =
      (if st1.any (fun l => l.name = muted_layer_name) = true then
        st1.filter (fun l => decide (¬ l.name = muted_layer_name)) else st1) := rfl
  rw [hgoal]
  constructor
  · cases hm : st1.any (fun l => l.name = muted_layer_name) with
    | false =>
      rw [if_neg (by simp [hm])]
      exact hA
    | true =>
      rw [if_pos (by simp [hm])]
      rw [layerCount_filter_other _ _ _ hdm]
      exact hA
  · cases hm : st1.any (fun l => l.name = muted_layer_name) with
    | false =>
      rw [if_neg (by simp [hm])]
      exact layerCount_eq_zero_of_not_any _ _ hm
    | true =>
      rw [if_pos (by simp [hm])]
      exact layerCount_filter_ne _ _

theorem restoreLights_counts (st : List Layer) :
    layerCount displayed_layer_name (restoreLights st).1 = 0
    ∧ layerCount muted_layer_name (restoreLights st).1 = 0 :=
  restoreLightsBody_counts st

theorem layerCount_addMembersTo (nm nm2 : String) (ms : List String) (st : List Layer) :
    layerCount nm (addMembersTo nm2 ms st) = layerCount nm st := by
  induction st with
  | nil => rfl
  | cons l rest ih =>
    unfold addMembersTo
    by_cases h : l.name = nm2
    · rw [if_pos h]
      unfold layerCount
      rw [List.countP_cons, List.countP_cons]
    · rw [if_neg h]
      unfold layerCount
      rw [List.countP_cons, List.countP_cons]
      unfold layerCount at ih
      rw [ih]

theorem soloLights_preserves_inv (sc : Scene) (st : List Layer) (sel : List String)
    (hier : Bool) : LayerInv (soloLights sc st sel hier).1 := by
  have hres := restoreLights_counts st
  unfold soloLights
  cases hsel : (onlyLightsFromSelection sc sel false hier).1 with
  | none =>
    exact ⟨(by rw [hres.1]; exact Nat.zero_le 1), (by rw [hres.2]; exact Nat.zero_le 1)⟩
  | some displayed =>
    cases hall : getAllLights sc false with
    | none =>
      exact ⟨(by rw [hres.1]; exact Nat.zero_le 1), (by rw [hres.2]; exact Nat.zero_le 1)⟩
    | some all_lights =>
      constructor
      · show layerCount displayed_layer_name ((restoreLights st).1 ++ _) ≤ 1
        rw [layerCount_append, hres.1]
        simp [layerCount, List.filter_cons, displayed_layer_name, muted_layer_name]
      · show layerCount muted_layer_name ((restoreLights st).1 ++ _) ≤ 1
        rw [layerCount_append, hres.2]
        simp [layerCount, List.filter_cons, displayed_layer_name, muted_layer_name]

theorem muteLights_preserves_inv (sc : Scene) (st : List Layer) (sel : List String)
    (hier : Bool) (hinv : LayerInv st) : LayerInv (muteLights sc st sel hier).1 := by
  unfold muteLights
  cases hsel : (onlyLightsFromSelection sc sel false hier).1 with
  | none => exact hinv
  | some lights =>
    cases hm : st.any (fun l => l.name = muted_layer_name) with
    | true =>
      show LayerInv (addMembersTo muted_layer_name lights st)
      exact ⟨(by rw [layerCount_addMembersTo]; exact hinv.1),
        (by rw [layerCount_addMembersTo]; exact hinv.2)⟩
    | false =>
      show LayerInv
        ((st ++ [⟨muted_layer_name, lights, 21, false⟩], some lights) :
          List Layer × Option (List String)).1
      constructor
      · show layerCount displayed_layer_name (st ++ _) ≤ 1
        rw [layerCount_append]
        have h0 : layerCount displayed_layer_name
            [(⟨muted_layer_name, lights, 21, false⟩ : Layer)] = 0 := by
          simp [layerCount, List.filter_cons, displayed_layer_name, muted_layer_name]
        rw [h0]
        simpa using hinv.1
      · show layerCount muted_layer_name (st ++ _) ≤ 1
        rw [layerCount_append, layerCount_eq_zero_of_not_any _ _ hm]
        simp [layerCount, List.filter_cons]

theorem applyOp_preserves_inv (sc : Scene) (st : List Layer) (op : LightsOp)
    (hinv : LayerInv st) : LayerInv (applyOp sc st op) := by
  cases op with
  | solo sel hier => exact soloLights_preserves_inv sc st sel hier
  | mute sel hier => exact muteLights_preserves_inv sc st sel hier hinv
  | restore =>
    have h := restoreLights_counts st
    show LayerInv (restoreLights st).1
    exact ⟨(by rw [h.1]; exact Nat.zero_le 1), (by rw [h.2]; exact Nat.zero_le 1)⟩

/-- C4 counterexample. The claim says `restoreLights` returns `True` exactly
when at least one of the two layers existed; but the method is decorated
with `@_wrapperUndoChunck`, whose wrapper discards the return value of the
body, so with a `displayedLights` layer present the method deletes it and
still returns `None` — not `True`. The body's own `return` does compute
`True` there. -/
theorem restoreLights_returns_none_counterexample :
    (restoreLights [⟨displayed_layer_name, [], 22, true⟩]).2 = none
    ∧ (restoreLightsBody [⟨displayed_layer_name, [], 22, true⟩]).2 = true
    ∧ ¬ (restoreLights [⟨displayed_layer_name, [], 22, true⟩]).2 = some true := by
  exact ⟨rfl, by decide, by decide⟩

/-- C4 (amended). From any state with at most one displayed and one muted
layer, every sequence of `soloLights`, `muteLights` and `restoreLights`
operations keeps at most one layer of each of the two fixed names; the
undecorated body of `restoreLights` computes `True` exactly when at least
one of the two layers existed, but the undo-chunk wrapper discards that
value, so the method itself always returns `None`. -/
theorem lightLayers_at_most_one (sc : Scene) (ops : List LightsOp) (st0 : List Layer)
    (h0 : LayerInv st0) :
    LayerInv (runOps sc st0 ops)
    ∧ (∀ st : List Layer, (restoreLightsBody st).2 =
        (st.any (fun l => l.name = displayed_layer_name)
          || ((if st.any (fun l => l.name = displayed_layer_name) = true then
                st.filter (fun l => decide (¬ l.name = displayed_layer_name)) else st).any
              (fun l => l.name = muted_layer_name))))
    ∧ (∀ st : List Layer, (restoreLights st).2 = none) := by
  refine ⟨?_, ?_, ?_⟩
  · induction ops generalizing st0 with
    | nil => exact h0
    | cons op rest ih => exact ih _ (applyOp_preserves_inv sc st0 op h0)
  · intro st
    rfl
  · intro st
    rfl

/-- C4 witness: solo then mute then a second mute then restore, starting
from an empty layer state, keeps the invariant. -/
theorem lightLayers_at_most_one_witness :
    LayerInv (runOps exScene []
      [.solo ["lgtA"] false, .mute ["lgtB"] false, .mute ["lgtA"] false, .restore])
    ∧ (∀ st : List Layer, (restoreLightsBody st).2 =
        (st.any (fun l => l.name = displayed_layer_name)
          || ((if st.any (fun l => l.name = displayed_layer_name) = true then
                st.filter (fun l => decide (¬ l.name = displayed_layer_name)) else st).any
              (fun l => l.name = muted_layer_name))))
    ∧ (∀ st : List Layer, (restoreLights st).2 = none) :=
  lightLayers_at_most_one exScene
    [.solo ["lgtA"] false, .mute ["lgtB"] false, .mute ["lgtA"] false, .restore] []
    ⟨Nat.zero_le 1, Nat.zero_le 1⟩

theorem foldl_setOneAttr_store (sc : Scene) (mode attr_ : String) (value : Int)
    (L : List String) (st : AttrStore) (w : List String) (hnd : L.Nodup) (n a : String) :
    (L.foldl (setOneAttr sc mode attr_ value) (st, w)).1 n a
      = if n ∈ L ∧ a = attr_ ∧ sc.hasAttr n attr_ = true then
          (if mode = "absolute" then value else value + st n attr_)
        else st n a := by
  induction L generalizing st w with
  | nil => simp
  | cons x xs ih =>
    have hx : ¬ x ∈ xs := (List.nodup_cons.mp hnd).1
    have hxs : xs.Nodup := (List.nodup_cons.mp hnd).2
    rw [List.foldl_cons]
    have hstep : setOneAttr sc mode attr_ value (st, w) x
        = ((if sc.hasAttr x attr_ = true then
            setAttr st x attr_ (if mode = "absolute" then value else value + st x attr_)
           else st),
           (if sc.hasAttr x attr_ = true then w
            else w ++ [x ++ "." ++ attr_ ++ " does not exist"])) := by
      unfold setOneAttr
      by_cases hh : sc.hasAttr x attr_ = true
      · rw [if_pos hh, if_pos hh, if_pos hh]
        by_cases hm : mode = "absolute"
        · rw [if_pos hm, if_pos hm]
        · rw [if_neg hm, if_neg hm]
      · rw [if_neg hh, if_neg hh, if_neg hh]
    rw [hstep, ih _ _ hxs]
    by_cases hna : n = x
    · subst hna
      by_cases hh : sc.hasAttr n attr_ = true <;> by_cases ha : a = attr_ <;>
        simp [setAttr, hh, ha, hx, List.mem_cons]
    · have hs1 : ∀ b, (if sc.hasAttr x attr_ = true then
            setAttr st x attr_ (if mode = "absolute" then value else value + st x attr_)
           else st) n b = st n b := by
        intro b
        by_cases hh : sc.hasAttr x attr_ = true
        · rw [if_pos hh]
          unfold setAttr
          rw [if_neg (fun hcond => hna hcond.1)]
        · rw [if_neg hh]
      simp only [hs1]
      have hmem : (n ∈ x :: xs ∧ a = attr_ ∧ sc.hasAttr n attr_ = true)
          ↔ (n ∈ xs ∧ a = attr_ ∧ sc.hasAttr n attr_ = true) := by
        constructor
        · rintro ⟨hm, h2, h3⟩
          rcases List.mem_cons.mp hm with he | hm2
          · exact absurd he hna
          · exact ⟨hm2, h2, h3⟩
        · rintro ⟨hm, h2, h3⟩
          exact ⟨List.mem_cons_of_mem x hm, h2, h3⟩
      by_cases hc : n ∈ xs ∧ a = attr_ ∧ sc.hasAttr n attr_ = true
      · rw [if_pos hc, if_pos (hmem.mpr hc)]
      · rw [if_neg hc, if_neg (fun hh => hc (hmem.mp hh))]

theorem foldl_setOneAttr_warns (sc : Scene) (mode attr_ : String) (value : Int)
    (L : List String) (st : AttrStore) (w : List String) :
    (L.foldl (setOneAttr sc mode attr_ value) (st, w)).2
      = w ++ (L.filter (fun x => decide (¬ sc.hasAttr x attr_ = true))).map
          (fun x => x ++ "." ++ attr_ ++ " does not exist") := by
  induction L generalizing st w with
  | nil => simp
  | cons x xs ih =>
    have h2 : (setOneAttr sc mode attr_ value (st, w) x).2
        = if sc.hasAttr x attr_ = true then w
          else w ++ [x ++ "." ++ attr_ ++ " does not exist"] := by
      unfold setOneAttr
      by_cases hh : sc.hasAttr x attr_ = true
      · rw [if_pos hh, if_pos hh]
        by_cases hm : mode = "absolute"
        · rw [if_pos hm]
        · rw [if_neg hm]
      · rw [if_neg hh, if_neg hh]
    rw [List.foldl_cons]
    rw [show setOneAttr sc mode attr_ value (st, w) x
        = ((setOneAttr sc mode attr_ value (st, w) x).1,
           (setOneAttr sc mode attr_ value (st, w) x).2) from rfl]
    rw [ih, h2]
    by_cases hh : sc.hasAttr x attr_ = true
    · rw [if_pos hh, List.filter_cons, if_neg (by simp [hh])]
    · rw [if_neg hh, List.filter_cons, if_pos (by simp [hh])]
      simp

/-- C5. With an unknown mode `setMultiAttributesLights` logs an error and
returns `None` with no attribute changed. With a valid mode and selected
lights: when the chosen attribute is a light attribute, every selected light
shape owning it is set to the value (absolute) or its current value plus the
value (relative) and exactly the lights lacking it get a warning; otherwise
the same update is applied to the transform of each selected node. -/
theorem setMultiAttributesLights_spec (sc : Scene) (st : AttrStore) (sel : List String)
    (mode attr_ : String) (value : Int) :
    (¬ mode ∈ (["absolute", "relative"] : List String) →
      setMultiAttributesLights sc st sel mode attr_ value
        = (st, none, ["mode error: choose absolute or relative"]))
    ∧ (∀ lights, mode ∈ (["absolute", "relative"] : List String) →
        (onlyLightsFromSelection sc sel true false).1 = some lights →
        lights.Nodup → attr_ ∈ lgt_attrs →
        (∀ n a, (setMultiAttributesLights sc st sel mode attr_ value).1 n a
          = if n ∈ lights ∧ a = attr_ ∧ sc.hasAttr n attr_ = true then
              (if mode = "absolute" then value else value + st n attr_)
            else st n a)
        ∧ (setMultiAttributesLights sc st sel mode attr_ value).2.2
          = (lights.filter (fun x => decide (¬ sc.hasAttr x attr_ = true))).map
              (fun x => x ++ "." ++ attr_ ++ " does not exist"))
    ∧ (∀ lights, mode ∈ (["absolute", "relative"] : List String) →
        (onlyLightsFromSelection sc sel true false).1 = some lights →
        ¬ attr_ ∈ lgt_attrs →
        (sel.map (fun s => if ¬ sc.nodeType s = "transform" then sc.getParent s else s)).Nodup →
        ∀ n a, (setMultiAttributesLights sc st sel mode attr_ value).1 n a
          = if n ∈ sel.map (fun s => if ¬ sc.nodeType s = "transform" then sc.getParent s else s)
                ∧ a = attr_ ∧ sc.hasAttr n attr_ = true then
              (if mode = "absolute" then value else value + st n attr_)
            else st n a) := by
  refine ⟨?_, ?_, ?_⟩
  · intro hmode
    unfold setMultiAttributesLights
    rw [if_pos hmode]
  · intro lights hmode hsel hnd hattr
    have hm2 : ¬ ¬ mode ∈ (["absolute", "relative"] : List String) := fun hc => hc hmode
    constructor
    · intro n a
      unfold setMultiAttributesLights
      rw [if_neg hm2, hsel]
      show (if attr_ ∈ lgt_attrs then _ else _ :
          AttrStore × Option (List String) × List String).1 n a = _
      rw [if_pos hattr]
      exact foldl_setOneAttr_store sc mode attr_ value lights st [] hnd n a
    · unfold setMultiAttributesLights
      rw [if_neg hm2, hsel]
      show (if attr_ ∈ lgt_attrs then _ else _ :
          AttrStore × Option (List String) × List String).2.2 = _
      rw [if_pos hattr]
      show (lights.foldl (setOneAttr sc mode attr_ value) (st, [])).2 = _
      rw [foldl_setOneAttr_warns]
      rfl
  · intro lights hmode hsel hattr hnd n a
    have hm2 : ¬ ¬ mode ∈ (["absolute", "relative"] : List String) := fun hc => hc hmode
    unfold setMultiAttributesLights
    rw [if_neg hm2, hsel]
    show (if attr_ ∈ lgt_attrs then _ else _ :
        AttrStore × Option (List String) × List String).1 n a = _
    rw [if_neg hattr]
    exact foldl_setOneAttr_store sc mode attr_ value _ st [] hnd n a

/-- C5 witness: relative update of `intensity` by 2 on the selected light
`lgtA` sets the shape attribute to its current value 0 plus 2. -/
theorem setMultiAttributesLights_spec_witness :
    (setMultiAttributesLights exScene exStore ["lgtA"] "relative" "intensity" 2).1
      "lgtAShape" "intensity" = 2
    ∧ (setMultiAttributesLights exScene exStore ["lgtA"] "relative" "intensity" 2).2.2 = [] := by
  have h := (setMultiAttributesLights_spec exScene exStore ["lgtA"] "relative" "intensity" 2).2.1
    ["lgtAShape"] (by decide) (by decide) (by decide) (by decide)
  constructor
  · rw [h.1 "lgtAShape" "intensity"]
    decide
  · rw [h.2]
    decide

/-- C6 counterexample: the returned dict does not consist of exactly the two
lists — it carries a third entry under the key `type`. -/
theorem getUnusedLightFilters_keys_counterexample :
    ¬ ((getUnusedLightFilters exFilterScene "aiLightBlocker").map
        (fun d => d.map Prod.fst) = some ["disconnected", "null"]) := by
  decide

/-- C6 (amended). For the two admissible filter types,
`getUnusedLightFilters` classifies a filter of that type as disconnected
exactly when it has no outputs and as null exactly when it is connected and
inert (blocker of zero density, decay with both attenuations off); it
returns `None` exactly when no filter of the type exists or both lists are
empty, and otherwise the dict with keys `disconnected`, `null` and `type`
whose two lists are disjoint. -/
theorem getUnusedLightFilters_spec (sc : FilterScene) (ai_filter : String)
    (hf : ai_filter ∈ (["aiLightDecay", "aiLightBlocker"] : List String)) :
    (getUnusedLightFilters sc ai_filter = none ↔
      ((sc.ls ai_filter).isEmpty
        ∨ (((sc.ls ai_filter).filter (isDisconnectedFilter sc)).isEmpty
            ∧ ((sc.ls ai_filter).filter (isNullFilter sc ai_filter)).isEmpty)))
    ∧ (∀ d, getUnusedLightFilters sc ai_filter = some d →
        d = [("disconnected", DictVal.lst ((sc.ls ai_filter).filter (isDisconnectedFilter sc))),
             ("null", DictVal.lst ((sc.ls ai_filter).filter (isNullFilter sc ai_filter))),
             ("type", DictVal.str ai_filter)]
        ∧ ∀ x, x ∈ (sc.ls ai_filter).filter (isDisconnectedFilter sc) →
            ¬ x ∈ (sc.ls ai_filter).filter (isNullFilter sc ai_filter)) := by
  have hnull : ((sc.ls ai_filter).filter
        (fun f => decide (¬ (sc.outputs f).isEmpty = true))).filter
          (fun f => if ai_filter = "aiLightBlocker" then decide (sc.density f = 0)
            else decide (sc.useNearAtten f = false ∧ sc.useFarAtten f = false))
      = (sc.ls ai_filter).filter (isNullFilter sc ai_filter) := by
    rw [List.filter_filter]
    refine List.filter_congr ?_
    intro f _
    unfold isNullFilter
    cases hout : (sc.outputs f).isEmpty
    · simp [hout]
    · simp [hout]
  have hnull2 : (if ai_filter = "aiLightBlocker" then
        ((sc.ls ai_filter).filter (fun f => decide (¬ (sc.outputs f).isEmpty = true))).filter
          (fun b => decide (sc.density b = 0))
      else
        ((sc.ls ai_filter).filter (fun f => decide (¬ (sc.outputs f).isEmpty = true))).filter
          (fun d => decide (sc.useNearAtten d = false ∧ sc.useFarAtten d = false)))
      = (sc.ls ai_filter).filter (isNullFilter sc ai_filter) := by
    by_cases hb : ai_filter = "aiLightBlocker"
    · rw [if_pos hb, ← hnull]
      refine List.filter_congr ?_
      intro f _
      rw [if_pos hb]
    · rw [if_neg hb, ← hnull]
      refine List.filter_congr ?_
      intro f _
      rw [if_neg hb]
  have hdisc : isDisconnectedFilter sc = fun f => (sc.outputs f).isEmpty := rfl
  have hcode : getUnusedLightFilters sc ai_filter =
      (if (sc.ls ai_filter).isEmpty then none
       else if ((sc.ls ai_filter).filter (isDisconnectedFilter sc)).isEmpty
            ∧ ((sc.ls ai_filter).filter (isNullFilter sc ai_filter)).isEmpty then none
       else some [("disconnected",
              DictVal.lst ((sc.ls ai_filter).filter (isDisconnectedFilter sc))),
             ("null", DictVal.lst ((sc.ls ai_filter).filter (isNullFilter sc ai_filter))),
             ("type", DictVal.str ai_filter)]) := by
    rw [hdisc, ← hnull2]
    unfold getUnusedLightFilters
    rw [if_neg (fun hc => hc hf)]
  refine ⟨?_, ?_⟩
  · rw [hcode]
    constructor
    · intro hnone
      by_cases he : (sc.ls ai_filter).isEmpty
      · exact Or.inl he
      · rw [if_neg he] at hnone
        by_cases hb : ((sc.ls ai_filter).filter (isDisconnectedFilter sc)).isEmpty
            ∧ ((sc.ls ai_filter).filter (isNullFilter sc ai_filter)).isEmpty
        · exact Or.inr hb
        · rw [if_neg hb] at hnone
          exact absurd hnone (by simp)
    · intro hor
      rcases hor with he | hb
      · rw [if_pos he]
      · by_cases he : (sc.ls ai_filter).isEmpty
        · rw [if_pos he]
        · rw [if_neg he, if_pos hb]
  · intro d hd
    rw [hcode] at hd
    by_cases he : (sc.ls ai_filter).isEmpty
    · rw [if_pos he] at hd
      exact absurd hd (by simp)
    · rw [if_neg he] at hd
      by_cases hb : ((sc.ls ai_filter).filter (isDisconnectedFilter sc)).isEmpty
          ∧ ((sc.ls ai_filter).filter (isNullFilter sc ai_filter)).isEmpty
      · rw [if_pos hb] at hd
        exact absurd hd (by simp)
      · rw [if_neg hb] at hd
        refine ⟨(Option.some_inj.mp hd).symm, ?_⟩
        intro x hx hx2
        have h1 : isDisconnectedFilter sc x = true := (List.mem_filter.mp hx).2
        have h2 : isNullFilter sc ai_filter x = true := (List.mem_filter.mp hx2).2
        unfold isDisconnectedFilter at h1
        unfold isNullFilter at h2
        rw [h1] at h2
        exact absurd h2 (by simp)

/-- C6 witness for the amended theorem: in the example scene the
disconnected blocker and the connected zero-density blocker are classified
apart, the dict holds the three keys, and the lists are disjoint. -/
theorem getUnusedLightFilters_spec_witness :
    (getUnusedLightFilters exFilterScene "aiLightBlocker"
      = some [("disconnected", DictVal.lst ["blockerA"]),
              ("null", DictVal.lst ["blockerB"]),
              ("type", DictVal.str "aiLightBlocker")])
    ∧ ¬ "blockerA" ∈ (exFilterScene.ls "aiLightBlocker").filter
        (isNullFilter exFilterScene "aiLightBlocker") := by
  have h := getUnusedLightFilters_spec exFilterScene "aiLightBlocker" (by decide)
  have hv : getUnusedLightFilters exFilterScene "aiLightBlocker"
      = some [("disconnected", DictVal.lst ["blockerA"]),
              ("null", DictVal.lst ["blockerB"]),
              ("type", DictVal.str "aiLightBlocker")] := by decide
  refine ⟨hv, ?_⟩
  have hmem : "blockerA" ∈ (exFilterScene.ls "aiLightBlocker").filter
      (isDisconnectedFilter exFilterScene) := by decide
  exact (h.2 _ hv).2 "blockerA" hmem

theorem reindexAux_below (k : Nat) : ∀ (f i : Nat) (arr : Nat → Option String),
    i + f ≤ k → reindexAux k arr i f = arr := by
  intro f
  induction f with
  | zero => intro i arr _; rfl
  | succ f2 ih =>
    intro i arr h
    show reindexAux k (reindexShift k i (reindexDisconnect k i arr)) (i + 1) f2 = arr
    rw [show reindexDisconnect k i arr = arr from by
        unfold reindexDisconnect; rw [if_neg (by omega)],
      show reindexShift k i arr = arr from by
        unfold reindexShift; rw [if_neg (by omega)]]
    exact ih (i + 1) arr (by omega)

theorem reindexAux_add (k : Nat) : ∀ (f1 f2 i : Nat) (arr : Nat → Option String),
    reindexAux k arr i (f1 + f2) = reindexAux k (reindexAux k arr i f1) (i + f1) f2 := by
  intro f1
  induction f1 with
  | zero =>
    intro f2 i arr
    rw [Nat.zero_add, Nat.add_zero]
    rfl
  | succ f3 ih =>
    intro f2 i arr
    rw [show f3 + 1 + f2 = (f3 + f2) + 1 from by omega]
    show reindexAux k (reindexShift k i (reindexDisconnect k i arr)) (i + 1) (f3 + f2) = _
    rw [ih f2 (i + 1) (reindexShift k i (reindexDisconnect k i arr))]
    rw [show i + 1 + f3 = i + (f3 + 1) from by omega]
    rfl

theorem reindexAux_shift (k : Nat) : ∀ (f i : Nat) (arr : Nat → Option String), k ≤ i →
    (∀ j, j < i → reindexAux k arr (i + 1) f j = arr j)
    ∧ (∀ j, i ≤ j → j < i + f → reindexAux k arr (i + 1) f j = arr (j + 1))
    ∧ (1 ≤ f → reindexAux k arr (i + 1) f (i + f) = none)
    ∧ (∀ j, i + f < j → reindexAux k arr (i + 1) f j = arr j) := by
  intro f
  induction f with
  | zero =>
    intro i arr _
    exact ⟨fun j _ => rfl, fun j h1 h2 => absurd h2 (by omega),
      fun h => absurd h (by omega), fun j _ => rfl⟩
  | succ f2 ih =>
    intro i arr hk
    have hne : ¬ (i + 1) = k := by omega
    have hlt : k < i + 1 := by omega
    have hstep : reindexAux k arr (i + 1) (f2 + 1)
        = reindexAux k (updateSlot (updateSlot arr (i + 1) none) i (arr (i + 1)))
            (i + 2) f2 := by
      show reindexAux k (reindexShift k (i + 1) (reindexDisconnect k (i + 1) arr)) (i + 2) f2 = _
      rw [show reindexDisconnect k (i + 1) arr = arr from by
          unfold reindexDisconnect; rw [if_neg hne],
        show reindexShift k (i + 1) arr
            = updateSlot (updateSlot arr (i + 1) none) i (arr (i + 1)) from by
          unfold reindexShift; rw [if_pos hlt]; rfl]
    set arr2 := updateSlot (updateSlot arr (i + 1) none) i (arr (i + 1)) with harr2
    have ha2 : ∀ j, ¬ j = i → ¬ j = i + 1 → arr2 j = arr j := by
      intro j h1 h2
      show (if j = i then arr (i + 1) else if j = i + 1 then none else arr j) = arr j
      rw [if_neg h1, if_neg h2]
    have ha2i : arr2 i = arr (i + 1) := by
      show (if i = i then arr (i + 1) else _) = arr (i + 1)
      rw [if_pos rfl]
    have ha2i1 : arr2 (i + 1) = none := by
      show (if i + 1 = i then arr (i + 1) else if i + 1 = i + 1 then none else arr (i + 1))
          = none
      rw [if_neg (by omega), if_pos rfl]
    have IH := ih (i + 1) arr2 (by omega)
    refine ⟨?_, ?_, ?_, ?_⟩
    · intro j hj
      rw [hstep, IH.1 j (by omega)]
      exact ha2 j (by omega) (by omega)
    · intro j h1 h2
      rw [hstep]
      by_cases hji : j = i
      · subst hji
        rw [IH.1 j (by omega)]
        exact ha2i
      · rw [IH.2.1 j (by omega) (by omega)]
        exact ha2 (j + 1) (by omega) (by omega)
    · intro _
      rw [hstep]
      by_cases hf2 : 1 ≤ f2
      · rw [show i + (f2 + 1) = (i + 1) + f2 from by omega]
        exact IH.2.2.1 hf2
      · have hf0 : f2 = 0 := by omega
        subst hf0
        show arr2 (i + (0 + 1)) = none
        rw [show i + (0 + 1) = i + 1 from by omega]
        exact ha2i1
    · intro j hj
      rw [hstep, IH.2.2.2 j (by omega)]
      exact ha2 j (by omega) (by omega)

/-- C7. When a null filter sits at index `index < num_filter` of a light
whose `aiFilters` slots are re-indexed by `deleteSafelyLightFilter`: slots
below `index` are untouched, each slot from `index` up to `num_filter - 2`
receives the filter previously one slot higher (preserving relative order),
slot `num_filter - 1` is left unconnected, slots from `num_filter` on are
untouched; and every filter listed as disconnected or null is deleted from
the scene. -/
theorem deleteSafelyLightFilter_reindex (arr : Nat → Option String)
    (num_filter index : Nat) (hk : index < num_filter) :
    (∀ j, j < index → reindexFilters arr num_filter index j = arr j)
    ∧ (∀ j, index ≤ j → j < num_filter - 1 →
        reindexFilters arr num_filter index j = arr (j + 1))
    ∧ reindexFilters arr num_filter index (num_filter - 1) = none
    ∧ (∀ j, num_filter ≤ j → reindexFilters arr num_filter index j = arr j)
    ∧ (∀ scene_nodes disconnected_filters null_filters x,
        x ∈ deletedFilters disconnected_filters null_filters →
        ¬ x ∈ deleteFromScene scene_nodes
            (deletedFilters disconnected_filters null_filters)) := by
  have hsplit : reindexFilters arr num_filter index
      = reindexAux index arr index (num_filter - index) := by
    unfold reindexFilters
    calc reindexAux index arr 0 num_filter
        = reindexAux index arr 0 (index + (num_filter - index)) := by
          rw [show index + (num_filter - index) = num_filter from by omega]
      _ = reindexAux index (reindexAux index arr 0 index) (0 + index) (num_filter - index) :=
          reindexAux_add index index (num_filter - index) 0 arr
      _ = reindexAux index arr index (num_filter - index) := by
          rw [reindexAux_below index index 0 arr (by omega), Nat.zero_add]
  have hm : num_filter - index = (num_filter - index - 1) + 1 := by omega
  set m := num_filter - index - 1 with hmdef
  have harrD : reindexAux index arr index (num_filter - index)
      = reindexAux index (updateSlot arr index none) (index + 1) m := by
    rw [hm]
    show reindexAux index
        (reindexShift index index (reindexDisconnect index index arr)) (index + 1) m = _
    rw [show reindexDisconnect index index arr = updateSlot arr index none from by
        unfold reindexDisconnect; rw [if_pos rfl],
      show reindexShift index index (updateSlot arr index none)
          = updateSlot arr index none from by
        unfold reindexShift; rw [if_neg (by omega)]]
  have hD : ∀ j, ¬ j = index → updateSlot arr index none j = arr j := by
    intro j hj
    show (if j = index then none else arr j) = arr j
    rw [if_neg hj]
  have hDk : updateSlot arr index none index = none := by
    show (if index = index then none else arr index) = none
    rw [if_pos rfl]
  have HS := reindexAux_shift index m index (updateSlot arr index none) (Nat.le_refl index)
  refine ⟨?_, ?_, ?_, ?_, ?_⟩
  · intro j hj
    rw [hsplit, harrD, HS.1 j (by omega), hD j (by omega)]
  · intro j h1 h2
    rw [hsplit, harrD, HS.2.1 j (by omega) (by omega), hD (j + 1) (by omega)]
  · rw [hsplit, harrD]
    by_cases hm1 : 1 ≤ m
    · rw [show num_filter - 1 = index + m from by omega]
      exact HS.2.2.1 hm1
    · have hm0 : m = 0 := by omega
      have hnum : num_filter - 1 = index := by omega
      rw [hnum, hm0]
      exact hDk
  · intro j hj
    rw [hsplit, harrD, HS.2.2.2 j (by omega), hD j (by omega)]
  · intro scene_nodes d nl x hx hmem
    have h2 := (List.mem_filter.mp hmem).2
    rw [decide_eq_true_eq] at h2
    exact h2 hx

/-- C7 witness: re-indexing `exArr` with `num_filter = 3`, `index = 1`
keeps slot 0, moves the filter of slot 2 down to slot 1, clears slot 2 and
leaves slots past the array untouched. -/
theorem deleteSafelyLightFilter_reindex_witness :
    reindexFilters exArr 3 1 0 = some "f0"
    ∧ reindexFilters exArr 3 1 1 = some "f2"
    ∧ reindexFilters exArr 3 1 2 = none
    ∧ reindexFilters exArr 3 1 7 = none := by
  have h := deleteSafelyLightFilter_reindex exArr 3 1 (by omega)
  refine ⟨?_, ?_, ?_, ?_⟩
  · rw [h.1 0 (by omega)]
    rfl
  · rw [h.2.1 1 (by omega) (by omega)]
    rfl
  · exact h.2.2.1
  · rw [h.2.2.2.1 7 (by omega)]
    rfl

end JMLightToolkit
